import Mathlib

/-!
Verification of the workforce-monitoring agent core against its
natural-language specification.  The C++ sources are shallowly embedded:
`double` becomes `ℚ`, `std::unordered_map` becomes an association list,
OS and network effects become explicit parameters, and event emission
through callbacks becomes returned event lists.
-/

/-- Association-list lookup, modelling `map.find(key)`. -/
def lookupEntry {α : Type} : List (String × α) → String → Option α
  | [], _ => none
  | (k, v) :: rest, key => if k = key then some v else lookupEntry rest key

/-- Association-list update-or-insert, modelling `map[key] = value`. -/
def setEntry {α : Type} : List (String × α) → String → α → List (String × α)
  | [], key, v => [(key, v)]
  | (k, w) :: rest, key, v =>
      if k = key then (key, v) :: rest else (k, w) :: setEntry rest key v

/-- Association-list removal, modelling `fs::remove(path)` on the file map. -/
def removeEntry {α : Type} : List (String × α) → String → List (String × α)
  | [], _ => []
  | (k, v) :: rest, key =>
      if k = key then removeEntry rest key else (k, v) :: removeEntry rest key

/-- One classified observation (struct `BehaviorPattern` in
`behavior_analyzer.h`); timestamps are abstract naturals. -/
structure BehaviorPattern where
  user : String
  pattern_type : String
  confidence_score : ℚ
  description : String
  timestamp : Nat
deriving DecidableEq

/-- Per-user behavioral baseline (struct `UserProfile`). -/
structure UserProfile where
  user_id : String
  baseline_metrics : List (String × ℚ)
  recent_patterns : List BehaviorPattern
  risk_score : ℚ
deriving DecidableEq

/-- The mutable state of `BehaviorAnalyzer`: the per-user profile map and the
global bounded pattern history (a deque, front = oldest). -/
structure AnalyzerState where
  user_profiles : List (String × UserProfile)
  pattern_history : List BehaviorPattern
deriving DecidableEq

/-- Append then drop the front when over capacity, modelling
`push_back` followed by `if (size > cap) pop_front()`. -/
def pushCapped (cap : Nat) (hist : List BehaviorPattern) (p : BehaviorPattern) :
    List BehaviorPattern :=
  let h := hist ++ [p]
  if h.length > cap then h.drop 1 else h

/-- The counting loop of `BehaviorAnalyzer::calculateRiskScore`:
`for (pattern : recent_patterns) { if (++total_recent > 10) break; ... }`.
Note the loop walks the vector from the front (the oldest pattern) and that
`total_recent` reaches 11 before the break when more than 10 patterns exist. -/
def riskCounts : List BehaviorPattern → Nat → Nat → Nat → Nat × Nat × Nat
  | [], s, a, t => (s, a, t)
  | p :: rest, s, a, t =>
      if t + 1 > 10 then (s, a, t + 1)
      else if p.pattern_type = "suspicious" then riskCounts rest (s + 1) a (t + 1)
      else if p.pattern_type = "anomalous" then riskCounts rest s (a + 1) (t + 1)
      else riskCounts rest s a (t + 1)

/-- Conditional form of `std::min(a, b)`, which returns `b` when `b < a`. -/
def stdMin (a b : ℚ) : ℚ := if b < a then b else a

/-- Conditional form of `std::max(a, b)`, which returns `b` when `a < b`. -/
def stdMax (a b : ℚ) : ℚ := if a < b then b else a

/-- `BehaviorAnalyzer::calculateRiskScore`:
`(suspicious*0.8 + anomalous*0.4) / total_recent`, capped by `min(.., 1.0)`. -/
def calculateRiskScore (st : AnalyzerState) (user : String) : ℚ :=
  match lookupEntry st.user_profiles user with
  | none => 0
  | some profile =>
      let c := riskCounts profile.recent_patterns 0 0 0
      let risk : ℚ :=
        if c.2.2 > 0 then
          ((c.1 : ℚ) * (8/10) + (c.2.1 : ℚ) * (4/10)) / (c.2.2 : ℚ)
        else 0
      stdMin risk 1

/-- EMA baseline update of `BehaviorAnalyzer::updateBaseline`:
`baseline[key] = alpha*value + (1-alpha)*baseline[key]` with alpha = 0.1,
seeding absent keys directly. -/
def emaUpdate (baseline : List (String × ℚ)) (metrics : List (String × ℚ)) :
    List (String × ℚ) :=
  metrics.foldl
    (fun b kv =>
      match lookupEntry b kv.1 with
      | none => setEntry b kv.1 kv.2
      | some old => setEntry b kv.1 ((1/10) * kv.2 + (9/10) * old))
    baseline

/-- `BehaviorAnalyzer::updateBaseline`: creates the profile on first
observation (risk 0, empty recent list), otherwise EMA-updates the baseline. -/
def updateBaseline (st : AnalyzerState) (user : String)
    (metrics : List (String × ℚ)) : AnalyzerState :=
  match lookupEntry st.user_profiles user with
  | none =>
      let profiles := setEntry st.user_profiles user ⟨user, metrics, [], 0⟩
      { st with user_profiles := profiles }
  | some p =>
      let p' := { p with baseline_metrics := emaUpdate p.baseline_metrics metrics }
      { st with user_profiles := setEntry st.user_profiles user p' }

/-- `BehaviorAnalyzer::analyzeActivity`.  `detectAnomalies` has no observable
effect (its result is discarded in the source), so it is not modelled.
Returns the new state, the stored pattern and whether the anomaly callback
fired (`pattern_type != "normal"`). -/
def analyzeActivity (st : AnalyzerState) (user activity : String)
    (metrics : List (String × ℚ)) (t : Nat) :
    AnalyzerState × BehaviorPattern × Bool :=
  let st := updateBaseline st user metrics
  let conf := calculateRiskScore st user
  let ptype :=
    if conf > 7/10 then "suspicious"
    else if conf > 1/2 then "anomalous"
    else "normal"
  let descr :=
    if conf > 7/10 then "Suspicious activity detected: " ++ activity
    else if conf > 1/2 then "Anomalous behavior detected: " ++ activity
    else "Normal activity: " ++ activity
  let pattern : BehaviorPattern := ⟨user, ptype, conf, descr, t⟩
  let history := pushCapped 1000 st.pattern_history pattern
  let profiles :=
    match lookupEntry st.user_profiles user with
    | none => setEntry st.user_profiles user ⟨user, [], [], 0⟩
    | some _ => st.user_profiles
  let profiles :=
    match lookupEntry profiles user with
    | none => profiles
    | some p =>
        let p' := { p with recent_patterns := p.recent_patterns ++ [pattern], risk_score := conf }
        setEntry profiles user p'
  (⟨profiles, history⟩, pattern, ptype ≠ "normal")

/-- One model-produced insight (struct `LLMBehaviorInsight`). -/
structure LLMBehaviorInsight where
  user : String
  insight_type : String
  severity : String
  confidence_score : ℚ
  description : String
  analysis : String
  recommendations : List String
  timestamp : Nat
deriving DecidableEq

/-- The pattern that `BehaviorAnalyzer::handleLLMInsight` builds from an
insight (type mapping and description assembly). -/
def insightPattern (i : LLMBehaviorInsight) : BehaviorPattern :=
  let ptype :=
    if i.insight_type = "alert" ∨ i.severity = "critical" ∨ i.severity = "high"
      then "suspicious"
    else if i.insight_type = "pattern" ∨ i.severity = "medium" then "anomalous"
    else "normal"
  ⟨i.user, ptype, i.confidence_score,
    "[" ++ i.insight_type ++ "] " ++ i.description, i.timestamp⟩

/-- `BehaviorAnalyzer::handleLLMInsight`: appends the mapped pattern to the
global history; the profile map is touched only when the user already has a
profile, in which case the pattern is appended to the recent list and
`risk_score = max(risk_score, insight.confidence_score)`.  Returns the new
state, the pattern and whether the anomaly callback fired. -/
def handleLLMInsight (st : AnalyzerState) (i : LLMBehaviorInsight) :
    AnalyzerState × BehaviorPattern × Bool :=
  let pattern := insightPattern i
  let history := pushCapped 1000 st.pattern_history pattern
  let profiles :=
    match lookupEntry st.user_profiles i.user with
    | none => st.user_profiles
    | some p =>
        let p' := { p with recent_patterns := p.recent_patterns ++ [pattern],
                           risk_score := stdMax p.risk_score i.confidence_score }
        setEntry st.user_profiles i.user p'
  (⟨profiles, history⟩, pattern, pattern.pattern_type ≠ "normal")

/-- One call into the behavioral risk engine: either a native
`analyzeActivity` call or an asynchronous LLM-insight fusion. -/
inductive AnalyzerOp where
  | activity (user activity : String) (metrics : List (String × ℚ)) (t : Nat)
  | insight (i : LLMBehaviorInsight)
deriving DecidableEq

/-- One engine step. -/
def stepAnalyzer (st : AnalyzerState) (op : AnalyzerOp) : AnalyzerState :=
  match op with
  | .activity u a m t => (analyzeActivity st u a m t).1
  | .insight i => (handleLLMInsight st i).1

/-- The empty engine state at construction time. -/
def initAnalyzerState : AnalyzerState := ⟨[], []⟩

/-- Run a sequence of engine calls from the empty state. -/
def runOps (ops : List AnalyzerOp) : AnalyzerState :=
  ops.foldl stepAnalyzer initAnalyzerState

/-- Every stored user profile has risk score inside the closed interval. -/
def profilesInRange (st : AnalyzerState) : Prop :=
  ∀ pr ∈ st.user_profiles, 0 ≤ pr.2.risk_score ∧ pr.2.risk_score ≤ 1

instance (st : AnalyzerState) : Decidable (profilesInRange st) := by
  unfold profilesInRange
  infer_instance

/-- Whether an engine call carries an insight whose confidence is at most 1
(native activity calls trivially qualify). -/
def insightConfLe1 : AnalyzerOp → Bool
  | .activity _ _ _ _ => true
  | .insight i => i.confidence_score ≤ 1

/-- The confidence formula exactly as the claim (and the spec) state it, for
comparison with `calculateRiskScore`: weighted counts over the LAST 10
recorded patterns, total considered at most 10, clamped to 1. -/
def claimedConfidenceScore (ps : List BehaviorPattern) : ℚ :=
  let window := ps.drop (ps.length - 10)
  let s := (window.filter (fun p => p.pattern_type = "suspicious")).length
  let a := (window.filter (fun p => p.pattern_type = "anomalous")).length
  if window.length > 0 then
    stdMin (((s : ℚ) * (8/10) + (a : ℚ) * (4/10)) / (window.length : ℚ)) 1
  else 0

/-! Concrete inputs used by the behavioral-engine theorems. -/

/-- A suspicious pattern for user u1. -/
def suspPat : BehaviorPattern := ⟨"u1", "suspicious", 4/5, "worth noting", 0⟩

/-- A normal pattern for user u1. -/
def normalPat : BehaviorPattern := ⟨"u1", "normal", 0, "routine", 0⟩

/-- Eleven recorded patterns: ten normal ones followed by one suspicious. -/
def elevenPats : List BehaviorPattern := List.replicate 10 normalPat ++ [suspPat]

/-- Engine state holding user u1 with those eleven recorded patterns. -/
def stEleven : AnalyzerState := ⟨[("u1", ⟨"u1", [], elevenPats, 0⟩)], []⟩

/-- An insight whose confidence score (2.0) exceeds 1, as an unvalidated
provider response can produce. -/
def bigConfInsight : LLMBehaviorInsight := ⟨"alice", "risk", "low", 2, "d", "a", [], 1⟩

/-- One native call followed by the fusion of the over-confident insight. -/
def exOps : List AnalyzerOp :=
  [.activity "alice" "login" [("activity_level", 1)] 0, .insight bigConfInsight]

/-- The same sequence with a properly bounded insight confidence. -/
def exOpsGood : List AnalyzerOp :=
  [.activity "alice" "login" [("activity_level", 1)] 0,
   .insight ⟨"alice", "risk", "low", 9/10, "d", "a", [], 1⟩]

/-- An insight for a user that has no profile yet. -/
def orphanInsight : LLMBehaviorInsight :=
  ⟨"carol", "alert", "critical", 9/10, "bulk copy to removable media", "a", [], 5⟩

/-- A profile for bob with risk 1/2 used by the fusion witness. -/
def pBob : UserProfile := ⟨"bob", [], [], 1/2⟩

/-- Engine state holding only bob. -/
def stBob : AnalyzerState := ⟨[("bob", pBob)], []⟩

/-- An insight for bob with confidence 3/4. -/
def iBob : LLMBehaviorInsight := ⟨"bob", "alert", "critical", 3/4, "d", "a", [], 7⟩

/-!
DLP detection engine (`dlp_monitor.h` / `dlp_monitor.cpp`).  Regular
expressions are abstracted to matcher functions, the filesystem to a partial
map from path to readable content, and callback emission to returned event
lists (the callback is assumed registered).
-/

/-- A data-protection rule (struct `DLPPolicy`); `std::regex` patterns are
abstracted to content matchers. -/
structure DLPPolicy where
  name : String
  file_extensions : List String
  content_patterns : List (String → Bool)
  restricted_paths : List String
  block_transfer : Bool

/-- One detected or blocked action (struct `DLPEvent`). -/
structure DLPEvent where
  timestamp : String
  type : String
  file_path : String
  destination : String
  user : String
  policy_violated : String
  blocked : Bool
deriving DecidableEq

/-- Substring test, modelling `std::string::find(pat) != npos`. -/
def containsSub (hay pat : String) : Bool :=
  hay.data.tails.any (fun t => pat.data.isPrefixOf t)

/-- The hardcoded fallback keyword list of
`DLPMonitor::checkContentAgainstPolicies`. -/
def fallbackKeywords : List String :=
  ["confidential", "secret", "internal", "password", "api_key", "token"]

/-- `DLPMonitor::checkContentAgainstPolicies`: false when the file cannot be
opened or its content is empty; otherwise, for every policy and every one of
its content patterns, a case-sensitive pattern match or a case-insensitive
hardcoded keyword hit reports a violation. -/
def checkContentAgainstPolicies (policies : List DLPPolicy)
    (fs : String → Option String) (file_path : String) : Bool :=
  match fs file_path with
  | none => false
  | some content =>
      if content.isEmpty then false
      else
        let lower := content.toLower
        policies.any fun policy =>
          policy.content_patterns.any fun pattern =>
            pattern content || fallbackKeywords.any (fun kw => containsSub lower kw)

/-- `DLPMonitor::checkFileAgainstPolicies`: extension check via substring
search on the full path, restricted-path check via `find(path) == 0`
(prefix), then the content check (which itself ranges over all policies). -/
def checkFileAgainstPolicies (policies : List DLPPolicy)
    (fs : String → Option String) (file_path : String) : Bool :=
  policies.any fun policy =>
    policy.file_extensions.any (fun ext => containsSub file_path ext)
    || policy.restricted_paths.any (fun rp => rp.data.isPrefixOf file_path.data)
    || checkContentAgainstPolicies policies fs file_path

/-- The suffix after the last occurrence of a character, when it occurs. -/
def afterLast (c : Char) : List Char → Option (List Char)
  | [] => none
  | x :: xs =>
      match afterLast c xs with
      | some r => some r
      | none => if x = c then some xs else none

/-- The filename extension of a path: the final dot-suffix of the basename. -/
def fileExtension (path : String) : String :=
  let base := (afterLast '/' path.data).getD path.data
  match afterLast '.' base with
  | some ext => String.mk ('.' :: ext)
  | none => ""

/-- The match predicate exactly as the claim states it, for comparison:
extension membership in the extension set, restricted-path prefix, or the
readable content matching one of the same policy content patterns. -/
def claimFileMatch (policies : List DLPPolicy)
    (fs : String → Option String) (file_path : String) : Bool :=
  policies.any fun policy =>
    policy.file_extensions.contains (fileExtension file_path)
    || policy.restricted_paths.any (fun rp => rp.data.isPrefixOf file_path.data)
    || (match fs file_path with
        | none => false
        | some content => policy.content_patterns.any (fun pat => pat content))

/-- The suspicious destination-port list shared by the network checks. -/
def suspiciousPorts : List Int := [21, 22, 25, 110, 143, 993, 995]

/-- `DLPMonitor::checkPortAgainstPolicies` (polling fallback): one alert-only
event per blocking policy when the port is suspicious. -/
def checkPortAgainstPolicies (policies : List DLPPolicy) (port : Int)
    (ts : String) : List DLPEvent :=
  if suspiciousPorts.contains port then
    policies.filterMap fun policy =>
      if policy.block_transfer then
        some ⟨ts, "suspicious_port", "Network connection",
              "localhost:" ++ toString port, "current_user",
              "Connection to suspicious port: " ++ toString port, false⟩
      else none
  else []

/-- The exfiltration-tool name list of
`DLPMonitor::monitorSuspiciousProcesses`. -/
def suspiciousCommands : List String :=
  ["scp", "rsync", "ftp", "sftp", "wget", "curl", "nc", "netcat", "ssh"]

/-- `DLPMonitor::monitorSuspiciousProcesses` (polling fallback): `found`
abstracts the pgrep/ps process query; one alert-only event per blocking
policy for each suspicious command found running. -/
def monitorSuspiciousProcesses (policies : List DLPPolicy)
    (found : String → Bool) (ts : String) : List DLPEvent :=
  suspiciousCommands.flatMap fun cmd =>
    if found cmd then
      policies.filterMap fun policy =>
        if policy.block_transfer then
          some ⟨ts, "suspicious_process", cmd, "network", "current_user",
                "Suspicious network process detected: " ++ cmd, false⟩
        else none
    else []

/-- `DLPMonitor::checkDestinationAgainstPolicies` (polling fallback): one
event per policy with a restricted destination occurring in the remote
endpoint; the blocked flag copies the policy block_transfer flag. -/
def checkDestinationAgainstPolicies (policies : List DLPPolicy)
    (destination : String) (ts : String) : List DLPEvent :=
  policies.filterMap fun policy =>
    if policy.restricted_paths.any (fun rd => containsSub destination rd) then
      some ⟨ts, "restricted_destination", "Network transfer", destination,
            "current_user", "Transfer to restricted destination: " ++ destination,
            policy.block_transfer⟩
    else none

/-- A policy matching only the pdf extension. -/
def pdfPolicy : DLPPolicy := ⟨"pdf-policy", [".pdf"], [], [], true⟩

/-- A blocking policy whose restricted destination list names evil.com. -/
def evilDestPolicy : DLPPolicy := ⟨"dest-policy", [], [], ["evil.com"], true⟩

/-- A filesystem on which no file is readable. -/
def emptyFs : String → Option String := fun _ => none

/-!
Self-upgrade subsystem (`upgrade_manager.h` / `upgrade_manager.cpp`).
The network is a partial map from URL to response body, the on-disk state a
path-to-bytes association list, SHA-256 an abstract digest function, and the
observable side effects (status callback, rollback invocation) a trace.
-/

/-- Semantic version (struct `VersionInfo`). -/
structure VersionInfo where
  major : Int
  minor : Int
  patch : Int
  build : String
  release_date : String
deriving DecidableEq

/-- `VersionInfo::operator<`: lexicographic on (major, minor, patch). -/
def versionLt (a b : VersionInfo) : Bool :=
  if a.major ≠ b.major then a.major < b.major
  else if a.minor ≠ b.minor then a.minor < b.minor
  else a.patch < b.patch

/-- `VersionInfo::operator>`, defined as the flipped less-than. -/
def versionGt (a b : VersionInfo) : Bool := versionLt b a

/-- `VersionInfo::toString`: major.minor.patch with an optional -build tag. -/
def versionToString (v : VersionInfo) : String :=
  toString v.major ++ "." ++ toString v.minor ++ "." ++ toString v.patch
    ++ (if v.build.isEmpty then "" else "-" ++ v.build)

/-- A candidate release (struct `UpdateInfo`). -/
structure UpdateInfo where
  version : VersionInfo
  download_url : String
  checksum : String
  release_notes : String
  file_size : Nat
  signature : String
deriving DecidableEq

/-- Upgrade finite-state-machine status (enum `UpgradeStatus`). -/
inductive UpgradeStatus where
  | IDLE | CHECKING | DOWNLOADING | VERIFYING | INSTALLING | SUCCESS | FAILED | ROLLBACK
deriving DecidableEq, BEq

/-- An observable side effect of the upgrade manager. -/
inductive UpgradeAction where
  | setStatus (s : UpgradeStatus) (msg : String)
  | removeFile (path : String)
  | invokeInstall
  | invokeRollback
deriving DecidableEq, BEq

/-- The fields of the parsed `/latest` version descriptor. -/
structure RemoteInfo where
  major : Int
  minor : Int
  patch : Int
  build : String
  release_date : String
  download_url : String
  checksum : String
  release_notes : String
  file_size : Nat
  signature : String
deriving DecidableEq

/-- The manager state that `checkForUpdates` reads and writes. -/
structure UpgradeState where
  current_version : VersionInfo
  update_available : Bool
  available_update : UpdateInfo
deriving DecidableEq

/-- `UpgradeManager::checkForUpdates` on one fetch outcome (`none` covers an
empty response and JSON parse/type errors, all of which set FAILED and return
false).  The last component counts update-available callback firings; the
callback is assumed registered.  `autoUpdateCheckLoop` is a repetition of
this call. -/
def checkForUpdates (st : UpgradeState) (resp : Option RemoteInfo) :
    Bool × UpgradeState × Nat :=
  match resp with
  | none => (false, st, 0)
  | some r =>
      let latest : VersionInfo := ⟨r.major, r.minor, r.patch, r.build, r.release_date⟩
      if versionGt latest st.current_version then
        let upd : UpdateInfo :=
          ⟨latest, r.download_url, r.checksum, r.release_notes, r.file_size, r.signature⟩
        (true, ⟨st.current_version, true, upd⟩, 1)
      else (false, st, 0)

/-- Run a sequence of update checks, accumulating callback firings. -/
def runChecks (st : UpgradeState) (resps : List (Option RemoteInfo)) :
    UpgradeState × Nat :=
  resps.foldl
    (fun acc r =>
      let out := checkForUpdates acc.1 r
      (out.2.1, acc.2 + out.2.2))
    (st, 0)

/-- On-disk state: path to byte content. -/
def FileSys : Type := List (String × List Nat)

/-- `UpgradeManager::downloadFile`: `fopen(path, "wb")` creates the output
file empty, but CURLOPT_WRITEDATA points at the response string, so the body
accumulates in the returned string and the file is never written.  A network
failure returns the empty string. -/
def downloadFile (net : String → Option (List Nat)) (files : FileSys)
    (url output_path : String) : List Nat × FileSys :=
  let files := setEntry files output_path ([] : List Nat)
  match net url with
  | none => ([], files)
  | some body => (body, files)

/-- The byte prefix actually hashed by `UpgradeManager::calculateChecksum`:
the loop `while (file.read(buffer, 8192))` stops on the final partial read,
so only complete 8192-byte chunks are digested. -/
def chunkedContent (content : List Nat) : List Nat :=
  content.take (8192 * (content.length / 8192))

/-- `UpgradeManager::calculateChecksum` over the abstract digest `h`;
an unopenable file yields the empty string. -/
def calculateChecksum (h : List Nat → String) (files : FileSys)
    (path : String) : String :=
  match lookupEntry files path with
  | none => ""
  | some content => h (chunkedContent content)

/-- `UpgradeManager::verifyUpdateFile`. -/
def verifyUpdateFile (h : List Nat → String) (files : FileSys)
    (path expected : String) : Bool :=
  calculateChecksum h files path == expected

/-- `UpgradeManager::validateUpdateSignature`: the simplified check accepts
exactly the non-empty signatures, ignoring the file entirely. -/
def validateUpdateSignature (file_path signature : String) : Bool :=
  !signature.isEmpty

/-- `UpgradeManager::downloadUpdate`: download to the temp path, verify the
checksum (deleting the file on mismatch), then the signature if supplied
(again deleting on failure). -/
def downloadUpdate (h : List Nat → String) (net : String → Option (List Nat))
    (files : FileSys) (temp_directory : String) (update : UpdateInfo) :
    Bool × FileSys × List UpgradeAction :=
  let t0 : List UpgradeAction := [.setStatus .DOWNLOADING "Downloading update..."]
  let download_path :=
    temp_directory ++ "/update_" ++ versionToString update.version ++ ".tar.gz"
  let out := downloadFile net files update.download_url download_path
  let result := out.1
  let files := out.2
  if result.isEmpty then
    (false, files, t0 ++ [.setStatus .FAILED "Download failed"])
  else if !verifyUpdateFile h files download_path update.checksum then
    (false, removeEntry files download_path,
     t0 ++ [.setStatus .FAILED "Checksum verification failed", .removeFile download_path])
  else if !update.signature.isEmpty
      && !validateUpdateSignature download_path update.signature then
    (false, removeEntry files download_path,
     t0 ++ [.setStatus .FAILED "Signature verification failed", .removeFile download_path])
  else
    (true, files, t0 ++ [.setStatus .IDLE "Update downloaded and verified"])

/-- Environment outcomes for the install steps: backup copy, archive
extraction, the recursive search for the new executable, the executable
replacement, and the backup restore used by rollback. -/
structure InstallEnv where
  backupOk : Bool
  extractOk : Bool
  new_executable : Option String
  replaceOk : Bool
  restoreOk : Bool
deriving DecidableEq

/-- `UpgradeManager::rollbackUpdate`: fails when backups are disabled or the
restore fails. -/
def rollbackUpdate (backup_enabled restoreOk : Bool) : Bool × List UpgradeAction :=
  if !backup_enabled || !restoreOk then
    (false, [.setStatus .ROLLBACK "Rolling back update...",
             .setStatus .FAILED "Rollback failed"])
  else
    (true, [.setStatus .ROLLBACK "Rolling back update...",
            .setStatus .IDLE "Rollback completed"])

/-- `UpgradeManager::installUpdate` after verification: backup (if enabled),
extract, locate the new executable, replace; only the replace failure calls
`rollbackUpdate()` before returning false. -/
def installUpdate (backup_enabled : Bool) (env : InstallEnv) :
    Bool × List UpgradeAction :=
  let t0 : List UpgradeAction := [.setStatus .INSTALLING "Installing update..."]
  if backup_enabled && !env.backupOk then
    (false, t0 ++ [.setStatus .FAILED "Failed to create backup"])
  else if !env.extractOk then
    (false, t0 ++ [.setStatus .FAILED "Failed to extract update"])
  else
    match env.new_executable with
    | none => (false, t0 ++ [.setStatus .FAILED "New executable not found in update"])
    | some _ =>
        if !env.replaceOk then
          let rb := rollbackUpdate backup_enabled env.restoreOk
          (false, t0 ++ [.setStatus .FAILED "Failed to replace executable",
                         .invokeRollback] ++ rb.2)
        else (true, t0 ++ [.setStatus .SUCCESS "Update installed successfully"])

/-- Whether a trace records a `rollbackUpdate` invocation. -/
def rollbackInvoked (tr : List UpgradeAction) : Bool :=
  tr.contains .invokeRollback

/-!
LLM insight pipeline (`llm_behavior_analyzer.cpp`).
-/

/-- The typed view of a successfully parsed provider response body; `none`
fields are absent keys (the source reads them with `json::value` defaults). -/
structure LLMResponseDoc where
  risk_level : Option String
  confidence_score : Option ℚ
  analysis : Option String
  patterns : Option (List String)
  recommendations : Option (List String)
deriving DecidableEq

/-- Drop the two trailing characters, modelling
`s.substr(0, s.size() - 2)` on the pattern list description. -/
def dropLast2 (s : String) : String := String.mk s.data.dropLast.dropLast

/-- `LLMBehaviorAnalyzer::parseLLMResponse`.  `doc = none` is the branch in
which `json::parse` throws: the catch block wraps the raw text into a
degraded insight instead of discarding it, so the function always returns. -/
def parseLLMResponse (doc : Option LLMResponseDoc) (response user_id : String)
    (t : Nat) : LLMBehaviorInsight :=
  match doc with
  | some d =>
      let severity := d.risk_level.getD "medium"
      let confidence := d.confidence_score.getD (1/2)
      let analysis := d.analysis.getD "Analysis completed"
      let description :=
        match d.patterns with
        | some pats =>
            dropLast2 ("Detected patterns: " ++ String.join (pats.map (· ++ ", ")))
        | none => ""
      let recommendations := d.recommendations.getD []
      let insight_type :=
        if severity = "critical" ∨ severity = "high" then "alert"
        else if recommendations ≠ [] then "recommendation"
        else "pattern"
      ⟨user_id, insight_type, severity, confidence, description, analysis,
        recommendations, t⟩
  | none =>
      ⟨user_id, "pattern", "medium", 1/2, "LLM analysis completed", response, [], t⟩

/-!
Concrete inputs for the upgrade-subsystem theorems.
-/

/-- The compiled-in current version (constant CURRENT_VERSION). -/
def currentVersion : VersionInfo := ⟨1, 0, 0, "dev", "2025-01-06"⟩

/-- A placeholder for the empty available-update slot. -/
def noUpdate : UpdateInfo := ⟨⟨0, 0, 0, "", ""⟩, "", "", "", 0, ""⟩

/-- Initial upgrade-manager state at version 1.0.0. -/
def upgradeState0 : UpgradeState := ⟨currentVersion, false, noUpdate⟩

/-- A remote descriptor announcing version 1.0.1. -/
def remote101 : RemoteInfo :=
  ⟨1, 0, 1, "", "", "http://localhost:5000/download", "cafe", "", 4096, ""⟩

/-- A digest stand-in that reports the byte count, under which the digest of
the empty content (the string 0) differs from every non-empty digest. -/
def lenDigest : List Nat → String := fun l => toString l.length

/-- A network on which every URL serves the three-byte body [7, 8, 9]. -/
def tinyNet : String → Option (List Nat) := fun _ => some [7, 8, 9]

/-- A descriptor whose checksum is the digest of the EMPTY byte string. -/
def emptyDigestUpdate : UpdateInfo :=
  ⟨⟨1, 0, 1, "", ""⟩, "http://localhost:5000/download", "0", "", 3, ""⟩

/-- Install environment in which archive extraction fails. -/
def extractFailEnv : InstallEnv := ⟨true, false, some "/tmp/x/workforce_agent", true, true⟩

theorem lookupEntry_mem {α : Type} {l : List (String × α)} {k : String} {v : α}
    (h : lookupEntry l k = some v) : (k, v) ∈ l := by
  induction l with
  | nil => simp [lookupEntry] at h
  | cons hd tl ih =>
      rcases hd with ⟨k0, v0⟩
      by_cases hk : k0 = k
      · subst hk
        simp [lookupEntry] at h
        subst h
        exact List.mem_cons_self _ _
      · simp [lookupEntry, hk] at h
        exact List.mem_cons_of_mem _ (ih h)

theorem mem_setEntry {α : Type} {l : List (String × α)} {k : String} {v : α}
    {pr : String × α} (h : pr ∈ setEntry l k v) : pr ∈ l ∨ pr = (k, v) := by
  induction l with
  | nil =>
      simp [setEntry] at h
      right; exact h
  | cons hd tl ih =>
      rcases hd with ⟨k0, v0⟩
      by_cases hk : k0 = k
      · simp [setEntry, hk] at h
        rcases h with h | h
        · right; simpa using h
        · left; exact List.mem_cons_of_mem _ h
      · simp [setEntry, hk] at h
        rcases h with h | h
        · left; simp [h]
        · rcases ih h with h2 | h2
          · left; exact List.mem_cons_of_mem _ h2
          · right; exact h2

theorem lookupEntry_setEntry_self {α : Type} (l : List (String × α)) (k : String) (v : α) :
    lookupEntry (setEntry l k v) k = some v := by
  induction l with
  | nil => simp [setEntry, lookupEntry]
  | cons hd tl ih =>
      rcases hd with ⟨k0, v0⟩
      by_cases hk : k0 = k
      · simp [setEntry, hk, lookupEntry]
      · simp [setEntry, hk, lookupEntry, ih]

theorem stdMin_eq_min (a b : ℚ) : stdMin a b = min a b := by
  unfold stdMin
  rcases lt_trichotomy b a with h | h | h
  · simp [h, min_eq_right (le_of_lt h)]
  · simp [h, min_self]
  · simp [not_lt.mpr (le_of_lt h), min_eq_left (le_of_lt h)]

theorem stdMax_eq_max (a b : ℚ) : stdMax a b = max a b := by
  unfold stdMax
  rcases lt_trichotomy a b with h | h | h
  · simp [h, max_eq_right (le_of_lt h)]
  · simp [h, max_self]
  · simp [not_lt.mpr (le_of_lt h), max_eq_left (le_of_lt h)]

theorem calculateRiskScore_bounds (st : AnalyzerState) (u : String) :
    0 ≤ calculateRiskScore st u ∧ calculateRiskScore st u ≤ 1 := by
  unfold calculateRiskScore
  cases h : lookupEntry st.user_profiles u with
  | none => norm_num
  | some p =>
      dsimp only
      have hrisk : (0:ℚ) ≤
          (if (riskCounts p.recent_patterns 0 0 0).2.2 > 0 then
            (((riskCounts p.recent_patterns 0 0 0).1 : ℚ) * (8/10)
              + ((riskCounts p.recent_patterns 0 0 0).2.1 : ℚ) * (4/10))
              / ((riskCounts p.recent_patterns 0 0 0).2.2 : ℚ)
          else 0) := by
        split
        · positivity
        · exact le_refl 0
      rw [stdMin_eq_min]
      constructor
      · exact le_min hrisk zero_le_one
      · exact min_le_right _ _

theorem updateBaseline_range {st : AnalyzerState} (u : String)
    (m : List (String × ℚ)) (h : profilesInRange st) :
    profilesInRange (updateBaseline st u m) := by
  intro pr hpr
  unfold updateBaseline at hpr
  cases hl : lookupEntry st.user_profiles u with
  | none =>
      rw [hl] at hpr
      dsimp only at hpr
      rcases mem_setEntry hpr with h2 | h2
      · exact h pr h2
      · subst h2; norm_num
  | some p =>
      rw [hl] at hpr
      dsimp only at hpr
      rcases mem_setEntry hpr with h2 | h2
      · exact h pr h2
      · subst h2
        exact h (u, p) (lookupEntry_mem hl)

theorem analyzeActivity_range {st : AnalyzerState} (u a : String)
    (m : List (String × ℚ)) (t : Nat) (h : profilesInRange st) :
    profilesInRange (analyzeActivity st u a m t).1 := by
  have h1 : profilesInRange (updateBaseline st u m) := updateBaseline_range u m h
  have hc := calculateRiskScore_bounds (updateBaseline st u m) u
  intro pr hpr
  unfold analyzeActivity at hpr
  dsimp only at hpr
  set st1 := updateBaseline st u m with hst1
  set conf := calculateRiskScore st1 u with hconf
  have hmid : ∀ q ∈ (match lookupEntry st1.user_profiles u with
      | none => setEntry st1.user_profiles u ⟨u, [], [], 0⟩
      | some _ => st1.user_profiles),
      0 ≤ q.2.risk_score ∧ q.2.risk_score ≤ 1 := by
    cases hl : lookupEntry st1.user_profiles u with
    | none =>
        intro q hq
        dsimp only at hq
        rcases mem_setEntry hq with h2 | h2
        · exact h1 q h2
        · subst h2; norm_num
    | some _ =>
        intro q hq
        exact h1 q hq
  revert hpr
  cases hl2 : lookupEntry (match lookupEntry st1.user_profiles u with
      | none => setEntry st1.user_profiles u ⟨u, [], [], 0⟩
      | some _ => st1.user_profiles) u with
  | none =>
      intro hpr
      exact hmid pr hpr
  | some p0 =>
      intro hpr
      rcases mem_setEntry hpr with h2 | h2
      · exact hmid pr h2
      · subst h2
        exact hc

theorem handleLLMInsight_range {st : AnalyzerState} {i : LLMBehaviorInsight}
    (h : profilesInRange st) (hconf : i.confidence_score ≤ 1) :
    profilesInRange (handleLLMInsight st i).1 := by
  intro pr hpr
  unfold handleLLMInsight at hpr
  dsimp only at hpr
  revert hpr
  cases hl : lookupEntry st.user_profiles i.user with
  | none =>
      intro hpr
      exact h pr hpr
  | some p =>
      intro hpr
      rcases mem_setEntry hpr with h2 | h2
      · exact h pr h2
      · subst h2
        have hp := h (i.user, p) (lookupEntry_mem hl)
        dsimp only
        rw [stdMax_eq_max]
        constructor
        · exact le_trans hp.1 (le_max_left _ _)
        · exact max_le hp.2 hconf

theorem stepAnalyzer_range {st : AnalyzerState} {op : AnalyzerOp}
    (h : profilesInRange st) (hop : insightConfLe1 op = true) :
    profilesInRange (stepAnalyzer st op) := by
  cases op with
  | activity u a m t => exact analyzeActivity_range u a m t h
  | insight i =>
      apply handleLLMInsight_range h
      simpa [insightConfLe1] using hop

theorem foldl_stepAnalyzer_range :
    ∀ (ops : List AnalyzerOp) (st : AnalyzerState), profilesInRange st →
      (∀ op ∈ ops, insightConfLe1 op = true) →
      profilesInRange (ops.foldl stepAnalyzer st) := by
  intro ops
  induction ops with
  | nil => intro st h _; exact h
  | cons op rest ih =>
      intro st h hops
      simp only [List.foldl_cons]
      exact ih _ (stepAnalyzer_range h (hops op (List.mem_cons_self _ _)))
        (fun o ho => hops o (List.mem_cons_of_mem _ ho))

/-- Claim C4, counterexample: the claim as stated is false.  After one native
call for alice followed by fusing an insight whose confidence score is 2,
the risk score of alice is 2, outside the unit interval: the fusion path
takes the maximum with an unclamped insight confidence. -/
theorem risk_score_exceeds_one_counterexample : ¬ profilesInRange (runOps exOps) := by
  simp [profilesInRange, runOps, exOps, stepAnalyzer, initAnalyzerState,
        analyzeActivity, handleLLMInsight, updateBaseline, emaUpdate,
        calculateRiskScore, riskCounts, lookupEntry, setEntry, stdMin, stdMax,
        insightPattern, pushCapped, bigConfInsight]
  norm_num

/-- Claim C4, amended: after any sequence of analyzeActivity calls and
LLM-insight fusions in which every fused insight carries a confidence score
of at most 1, every stored user profile has risk score inside the closed
interval from 0 to 1. -/
theorem risk_score_in_unit_interval (ops : List AnalyzerOp)
    (h : ops.all insightConfLe1 = true) : profilesInRange (runOps ops) := by
  apply foldl_stepAnalyzer_range
  · intro pr hpr; simp [initAnalyzerState] at hpr
  · intro op hop
    exact List.all_eq_true.mp h op hop

/-- Claim C4 witness: the amended theorem applied to a concrete two-call
sequence whose insight confidence is 9/10. -/
theorem risk_score_in_unit_interval_witness :
    exOpsGood.all insightConfLe1 = true ∧ profilesInRange (runOps exOpsGood) := by
  have h : exOpsGood.all insightConfLe1 = true := by
    simp [exOpsGood, insightConfLe1]
    norm_num
  exact ⟨h, risk_score_in_unit_interval exOpsGood h⟩

/-- Claim C5: code_bug evidence.  For a user whose recent-pattern list holds
ten normal patterns followed by one suspicious pattern, the code computes
confidence 0 (it walks the list from the OLDEST pattern and divides by 11),
while the claimed formula over the LAST 10 recorded patterns with
total_considered at most 10 yields 2/25; the two disagree. -/
theorem risk_window_code_eval :
    calculateRiskScore stEleven "u1" = 0 ∧
    claimedConfidenceScore elevenPats = 2/25 ∧ (0 : ℚ) ≠ 2/25 := by
  refine ⟨?_, ?_, by norm_num⟩
  · simp [calculateRiskScore, stEleven, lookupEntry, elevenPats, riskCounts,
          stdMin, suspPat, normalPat, List.replicate]
  · simp [claimedConfidenceScore, elevenPats, suspPat, normalPat,
          List.replicate, stdMin]
    norm_num

/-- Claim C7, counterexample: the claim as stated is false.  Fusing an
insight for a user with no existing profile leaves the profile map empty
(nothing is appended to any recent-pattern list and no profile is created),
whereas the native analyzeActivity path creates the profile. -/
theorem insight_orphan_user_not_appended :
    (handleLLMInsight initAnalyzerState orphanInsight).1.user_profiles = [] ∧
    (analyzeActivity initAnalyzerState "carol" "login" [] 0).1.user_profiles ≠ [] := by
  constructor
  · simp [handleLLMInsight, initAnalyzerState, lookupEntry, insightPattern, orphanInsight]
  · simp [analyzeActivity, initAnalyzerState, updateBaseline, emaUpdate, lookupEntry,
          setEntry, calculateRiskScore, riskCounts, stdMin, pushCapped]

/-- Claim C7, amended: for a user WITH an existing profile, handleLLMInsight
appends the mapped pattern to the global history with the same cap-1000
push used by the native path, appends it to the recent-pattern list of the
user, and sets the risk score to the maximum of the existing risk score and
the insight confidence.  For a user without a profile only the global
history is appended. -/
theorem insight_fusion_existing_profile (st : AnalyzerState)
    (i : LLMBehaviorInsight) (p : UserProfile)
    (h : lookupEntry st.user_profiles i.user = some p) :
    (handleLLMInsight st i).1.pattern_history
      = pushCapped 1000 st.pattern_history (insightPattern i) ∧
    lookupEntry (handleLLMInsight st i).1.user_profiles i.user
      = some { p with recent_patterns := p.recent_patterns ++ [insightPattern i],
                      risk_score := max p.risk_score i.confidence_score } := by
  unfold handleLLMInsight
  rw [h]
  dsimp only
  rw [stdMax_eq_max]
  exact ⟨rfl, lookupEntry_setEntry_self _ _ _⟩

/-- Claim C7 witness: the amended theorem applied to a state holding bob
with risk 1/2 and an insight of confidence 3/4. -/
theorem insight_fusion_existing_profile_witness :
    lookupEntry stBob.user_profiles iBob.user = some pBob ∧
    ((handleLLMInsight stBob iBob).1.pattern_history
        = pushCapped 1000 stBob.pattern_history (insightPattern iBob) ∧
      lookupEntry (handleLLMInsight stBob iBob).1.user_profiles iBob.user
        = some { pBob with recent_patterns := pBob.recent_patterns ++ [insightPattern iBob],
                           risk_score := max pBob.risk_score iBob.confidence_score }) := by
  have h : lookupEntry stBob.user_profiles iBob.user = some pBob := by
    simp [stBob, iBob, lookupEntry]
  exact ⟨h, insight_fusion_existing_profile stBob iBob pBob h⟩

/-- Claim C6, counterexample: the claim as stated is false.  Two
checkForUpdates invocations that both observe remote version 1.0.1 against
local 1.0.0 fire the update-available callback twice, not exactly once:
the manager keeps no memory of already-announced versions. -/
theorem update_callback_fires_twice :
    (runChecks upgradeState0 [some remote101, some remote101]).2 = 2 ∧
    (runChecks upgradeState0 [some remote101, some remote101]).2 ≠ 1 := by
  constructor <;> decide

theorem runChecks_replicate_aux (r : RemoteInfo) :
    ∀ (n : Nat) (st : UpgradeState) (c : Nat),
      versionGt ⟨r.major, r.minor, r.patch, r.build, r.release_date⟩
        st.current_version = true →
      ((List.replicate n (some r)).foldl
        (fun acc x =>
          let out := checkForUpdates acc.1 x
          (out.2.1, acc.2 + out.2.2)) (st, c)).2 = c + n := by
  intro n
  induction n with
  | zero => intro st c _; simp
  | succ n ih =>
      intro st c h
      rw [List.replicate_succ, List.foldl_cons]
      have hstep : checkForUpdates st (some r)
          = (true, ⟨st.current_version, true,
              ⟨⟨r.major, r.minor, r.patch, r.build, r.release_date⟩,
                r.download_url, r.checksum, r.release_notes, r.file_size, r.signature⟩⟩, 1) := by
        simp [checkForUpdates, h]
      rw [hstep]
      have := ih ⟨st.current_version, true,
          ⟨⟨r.major, r.minor, r.patch, r.build, r.release_date⟩,
            r.download_url, r.checksum, r.release_notes, r.file_size, r.signature⟩⟩ (c + 1) h
      rw [this]
      omega

/-- Claim C6, amended: the update-available callback fires exactly once per
checkForUpdates invocation that observes a remote version newer than the
local version, hence n times for n such invocations of the same version. -/
theorem update_callback_fires_per_check (st : UpgradeState) (r : RemoteInfo) (n : Nat)
    (h : versionGt ⟨r.major, r.minor, r.patch, r.build, r.release_date⟩
        st.current_version = true) :
    (runChecks st (List.replicate n (some r))).2 = n := by
  unfold runChecks
  simpa using runChecks_replicate_aux r n st 0 h

/-- Claim C6 witness: the amended theorem applied to three checks of remote
1.0.1 against local 1.0.0, firing the callback three times. -/
theorem update_callback_fires_per_check_witness :
    versionGt ⟨remote101.major, remote101.minor, remote101.patch,
        remote101.build, remote101.release_date⟩ upgradeState0.current_version = true ∧
    (runChecks upgradeState0 (List.replicate 3 (some remote101))).2 = 3 := by
  have h : versionGt ⟨remote101.major, remote101.minor, remote101.patch,
      remote101.build, remote101.release_date⟩ upgradeState0.current_version = true := by
    decide
  exact ⟨h, update_callback_fires_per_check upgradeState0 remote101 3 h⟩

/-- Claim C2, counterexample: the claim as stated is false.  When archive
extraction fails (all other steps able to succeed), installUpdate returns
false WITHOUT invoking rollbackUpdate. -/
theorem extract_failure_no_rollback :
    (installUpdate true extractFailEnv).1 = false ∧
    rollbackInvoked (installUpdate true extractFailEnv).2 = false := by
  constructor <;> decide

/-- Claim C2, amended: installUpdate invokes rollbackUpdate exactly when the
backup step passes (or is disabled), extraction succeeds, the new executable
is found, and the executable replacement fails; backup, extraction and
locate failures return false without rollback. -/
theorem rollback_iff_replace_failure (be : Bool) (env : InstallEnv) :
    rollbackInvoked (installUpdate be env).2
      = ((!be || env.backupOk) && env.extractOk && env.new_executable.isSome
          && !env.replaceOk) := by
  obtain ⟨b, e, ne, r, rs⟩ := env
  cases be <;> cases b <;> cases e <;> cases r <;> cases rs <;> cases ne <;> rfl

/-- Claim C9, confirmed: for every response string that is not parseable as
JSON (the parse outcome is none), parseLLMResponse returns - it is a total
function, so it never throws - an insight with severity medium, confidence
score 1/2, and the raw response text in the analysis field. -/
theorem unparseable_response_degraded_insight (response user_id : String) (t : Nat) :
    (parseLLMResponse none response user_id t).severity = "medium" ∧
    (parseLLMResponse none response user_id t).confidence_score = 1/2 ∧
    (parseLLMResponse none response user_id t).analysis = response :=
  ⟨rfl, rfl, rfl⟩

/-- Claim C8, counterexample: the claim as stated is false.  The polling
fallback destination check emits a restricted_destination event whose
blocked flag is TRUE for a blocking policy matching the destination. -/
theorem fallback_destination_event_blocked :
    ((checkDestinationAgainstPolicies [evilDestPolicy] "evil.com:80" "ts").all
      fun e => !e.blocked) = false := by
  decide

/-- Claim C8, amended: suspicious_port and suspicious_process events emitted
by the polling fallback always carry blocked = false, but every
restricted_destination event copies the block_transfer flag of some policy
in the set, which may be true. -/
theorem fallback_event_blocked_flags (policies : List DLPPolicy) (port : Int)
    (found : String → Bool) (ts dest : String) :
    (∀ e ∈ checkPortAgainstPolicies policies port ts, e.blocked = false) ∧
    (∀ e ∈ monitorSuspiciousProcesses policies found ts, e.blocked = false) ∧
    (∀ e ∈ checkDestinationAgainstPolicies policies dest ts,
      ∃ p ∈ policies, e.blocked = p.block_transfer) := by
  refine ⟨?_, ?_, ?_⟩
  · intro e he
    unfold checkPortAgainstPolicies at he
    split at he
    · simp only [List.mem_filterMap] at he
      obtain ⟨p, hp, hf⟩ := he
      split at hf
      · simp only [Option.some.injEq] at hf
        rw [← hf]
      · cases hf
    · simp at he
  · intro e he
    unfold monitorSuspiciousProcesses at he
    simp only [List.mem_flatMap] at he
    obtain ⟨cmd, hcmd, hin⟩ := he
    split at hin
    · simp only [List.mem_filterMap] at hin
      obtain ⟨p, hp, hf⟩ := hin
      split at hf
      · simp only [Option.some.injEq] at hf
        rw [← hf]
      · cases hf
    · simp at hin
  · intro e he
    unfold checkDestinationAgainstPolicies at he
    simp only [List.mem_filterMap] at he
    obtain ⟨p, hp, hf⟩ := he
    refine ⟨p, hp, ?_⟩
    split at hf
    · simp only [Option.some.injEq] at hf
      rw [← hf]
    · cases hf

/-- Claim C10, confirmed: validateUpdateSignature returns true for every
non-empty signature string and false for the empty string, independent of
the file path and contents, and consequently the downloadUpdate signature
branch can never report a signature verification failure. -/
theorem signature_validation_accepts_nonempty (fp fp2 sig : String)
    (h : sig ≠ "") (dg : List Nat → String) (net : String → Option (List Nat))
    (files : FileSys) (temp : String) (update : UpdateInfo) :
    validateUpdateSignature fp sig = true ∧
    validateUpdateSignature fp2 "" = false ∧
    UpgradeAction.setStatus .FAILED "Signature verification failed"
      ∉ (downloadUpdate dg net files temp update).2.2 := by
  refine ⟨?_, rfl, ?_⟩
  · simp only [validateUpdateSignature, Bool.not_eq_true']
    rw [Bool.eq_false_iff]
    intro hc
    exact h ((String.isEmpty_iff sig).mp hc)
  · unfold downloadUpdate
    dsimp only
    split
    · simp
    · split
      · simp
      · split
        · rename_i hcond
          simp [validateUpdateSignature] at hcond
        · simp

/-- Claim C10 witness: the theorem applied to the signature x and concrete
download inputs. -/
theorem signature_validation_accepts_nonempty_witness :
    ("x" : String) ≠ "" ∧
    (validateUpdateSignature "/a" "x" = true ∧
     validateUpdateSignature "/b" "" = false ∧
     UpgradeAction.setStatus .FAILED "Signature verification failed"
       ∉ (downloadUpdate lenDigest tinyNet [] "/tmp" noUpdate).2.2) := by
  have h : ("x" : String) ≠ "" := by decide
  exact ⟨h, signature_validation_accepts_nonempty "/a" "/b" "x" h lenDigest
    tinyNet [] "/tmp" noUpdate⟩

/-- Claim C3, counterexample: the claim as stated is false.  With one policy
whose extension set is [.pdf], the file /tmp/a.pdfx matches in the code
(extension test is a substring search over the whole path) although its
filename extension .pdfx is not a member of the extension set, no restricted
path prefixes it, and no content is readable. -/
theorem extension_substring_match_counterexample :
    checkFileAgainstPolicies [pdfPolicy] emptyFs "/tmp/a.pdfx" = true ∧
    claimFileMatch [pdfPolicy] emptyFs "/tmp/a.pdfx" = false := by
  constructor <;> rfl

theorem checkContent_iff (policies : List DLPPolicy)
    (fs : String → Option String) (path : String) :
    checkContentAgainstPolicies policies fs path = true ↔
      ∃ content, fs path = some content ∧ content.isEmpty = false ∧
        ∃ q ∈ policies, ∃ pat ∈ q.content_patterns,
          (pat content = true ∨
            ∃ kw ∈ fallbackKeywords, containsSub content.toLower kw = true) := by
  unfold checkContentAgainstPolicies
  cases h : fs path with
  | none => simp
  | some content =>
      cases hie : content.isEmpty with
      | true => simp [hie]
      | false =>
          simp only [hie, Bool.false_eq_true, if_false, List.any_eq_true,
            Bool.or_eq_true, Option.some.injEq]
          constructor
          · rintro ⟨q, hq, pat, hpat, hmatch⟩
            exact ⟨content, rfl, hie, q, hq, pat, hpat, hmatch⟩
          · rintro ⟨c, hc, hce, q, hq, pat, hpat, hmatch⟩
            cases hc
            exact ⟨q, hq, pat, hpat, hmatch⟩

/-- Claim C3, amended: the file match predicate returns true iff some policy
has an extension string occurring as a substring anywhere in the path, or
some policy has a restricted path that prefixes the path, or the policy set
is non-empty and the file is readable with non-empty content and some
content pattern of some policy matches case-sensitively or the lowercased
content contains one of the six hardcoded fallback keywords. -/
theorem file_match_characterization (policies : List DLPPolicy)
    (fs : String → Option String) (path : String) :
    checkFileAgainstPolicies policies fs path = true ↔
      (∃ p ∈ policies,
          (∃ ext ∈ p.file_extensions, containsSub path ext = true) ∨
          (∃ rp ∈ p.restricted_paths, rp.data.isPrefixOf path.data = true))
      ∨ ((∃ p, p ∈ policies) ∧
          ∃ content, fs path = some content ∧ content.isEmpty = false ∧
            ∃ q ∈ policies, ∃ pat ∈ q.content_patterns,
              (pat content = true ∨
                ∃ kw ∈ fallbackKeywords, containsSub content.toLower kw = true)) := by
  unfold checkFileAgainstPolicies
  simp only [List.any_eq_true, Bool.or_eq_true, checkContent_iff]
  constructor
  · rintro ⟨p, hp, (hA | hB) | hC⟩
    · exact Or.inl ⟨p, hp, Or.inl hA⟩
    · exact Or.inl ⟨p, hp, Or.inr hB⟩
    · exact Or.inr ⟨⟨p, hp⟩, hC⟩
  · rintro (⟨p, hp, hA | hB⟩ | ⟨⟨p, hp⟩, hC⟩)
    · exact ⟨p, hp, Or.inl (Or.inl hA)⟩
    · exact ⟨p, hp, Or.inl (Or.inr hB)⟩
    · exact ⟨p, hp, Or.inr hC⟩

/-- Claim C1: code_bug evidence.  downloadFile never writes the body to the
temp file (CURLOPT_WRITEDATA points at the response string), so the file on
disk stays empty and calculateChecksum digests the empty byte string.  For
any descriptor whose checksum equals the digest of the empty content - even
though it differs from the digest of the actually downloaded artifact -
downloadUpdate returns TRUE and keeps the (empty) temp file on disk, instead
of failing, deleting it and never proceeding. -/
theorem checksum_mismatch_download_accepted (dg : List Nat → String)
    (net : String → Option (List Nat)) (files : FileSys) (temp : String)
    (update : UpdateInfo) (body : List Nat)
    (hnet : net update.download_url = some body) (hbody : body ≠ [])
    (hck : update.checksum = dg [])
    (hdig : dg body ≠ update.checksum)
    (hsig : update.signature = "") :
    (downloadUpdate dg net files temp update).1 = true ∧
    lookupEntry (downloadUpdate dg net files temp update).2.1
      (temp ++ "/update_" ++ versionToString update.version ++ ".tar.gz")
      = some [] ∧
    UpgradeAction.invokeInstall ∉ (downloadUpdate dg net files temp update).2.2 := by
  have hbe : body.isEmpty = false := by
    cases body with
    | nil => exact absurd rfl hbody
    | cons x xs => rfl
  unfold downloadUpdate downloadFile
  rw [hnet]
  dsimp only
  rw [hbe]
  have hverify : verifyUpdateFile dg
      (setEntry files (temp ++ "/update_" ++ versionToString update.version ++ ".tar.gz") [])
      (temp ++ "/update_" ++ versionToString update.version ++ ".tar.gz")
      update.checksum = true := by
    unfold verifyUpdateFile calculateChecksum
    rw [lookupEntry_setEntry_self]
    simp [chunkedContent, hck]
  rw [hverify]
  rw [hsig]
  have hemp : ("".isEmpty) = true := rfl
  simp [hemp, lookupEntry_setEntry_self]

/-- Claim C1 witness: the code_bug theorem applied to a three-byte artifact
and a descriptor carrying the digest of the empty content. -/
theorem checksum_mismatch_download_accepted_witness :
    tinyNet emptyDigestUpdate.download_url = some [7, 8, 9] ∧
    ([7, 8, 9] : List Nat) ≠ [] ∧
    emptyDigestUpdate.checksum = lenDigest [] ∧
    lenDigest [7, 8, 9] ≠ emptyDigestUpdate.checksum ∧
    emptyDigestUpdate.signature = "" ∧
    ((downloadUpdate lenDigest tinyNet [] "/tmp" emptyDigestUpdate).1 = true ∧
     lookupEntry (downloadUpdate lenDigest tinyNet [] "/tmp" emptyDigestUpdate).2.1
       ("/tmp" ++ "/update_" ++ versionToString emptyDigestUpdate.version ++ ".tar.gz")
       = some [] ∧
     UpgradeAction.invokeInstall
       ∉ (downloadUpdate lenDigest tinyNet [] "/tmp" emptyDigestUpdate).2.2) := by
  have h1 : tinyNet emptyDigestUpdate.download_url = some [7, 8, 9] := rfl
  have h2 : ([7, 8, 9] : List Nat) ≠ [] := by decide
  have h3 : emptyDigestUpdate.checksum = lenDigest [] := by decide
  have h4 : lenDigest [7, 8, 9] ≠ emptyDigestUpdate.checksum := by decide
  have h5 : emptyDigestUpdate.signature = "" := rfl
  exact ⟨h1, h2, h3, h4, h5,
    checksum_mismatch_download_accepted lenDigest tinyNet [] "/tmp"
      emptyDigestUpdate [7, 8, 9] h1 h2 h3 h4 h5⟩
